import Mathlib

/-!
Verification development for the 3-D ResNetV2 backbone of
nnunet/network_architecture/transunet/vit_seg_modeling_resnet_skip_3d.py.

The tensor runtime is modelled shallowly: a 5-D tensor is a shape record
(batch, channel, depth, height, width) together with a total data function
into the reals, plus the dtype and device labels that the reconciliation
code manipulates.  All convolutions in the source file use dilation 1; the
group count is carried explicitly.  Fallible code (the assert in
ensure_right_shape, the axes check in numpy transpose) is modelled with
Option, where none stands for the raised error.
-/

/-- Tensor element-type label (torch dtype).  Only the label matters for the
reconciliation code, which allocates with the runtime default dtype. -/
inductive DType where
  | f32
  | f64
  | f16
  deriving DecidableEq

/-- The global torch default floating dtype (torch.zeros default). -/
def defaultDType : DType := DType.f32

/-- A 5-D tensor: shape fields, dtype and device labels, and the values.
The data function is total; entries outside the shape are irrelevant. -/
structure Tensor5 where
  n : ℕ
  c : ℕ
  d : ℕ
  h : ℕ
  w : ℕ
  dtype : DType
  device : ℕ
  data : ℕ → ℕ → ℕ → ℕ → ℕ → ℝ

noncomputable section

/-- Padded access: index with integers, zero outside the spatial extent.
This realises the implicit zero padding of F.conv3d. -/
def tAt (x : Tensor5) (b c : ℕ) (z y xx : ℤ) : ℝ :=
  if 0 ≤ z ∧ z < (x.d : ℤ) ∧ 0 ≤ y ∧ y < (x.h : ℤ) ∧ 0 ≤ xx ∧ xx < (x.w : ℤ) then
    x.data b c z.toNat y.toNat xx.toNat
  else 0

/-- Output extent of a convolution / pooling axis:
floor((n + 2 * pad - kernel) / stride) + 1. -/
def convDim (n k s p : ℕ) : ℕ := (n + 2 * p - k) / s + 1

/-- Semantics of F.conv3d (cross-correlation) with cubic kernel k, equal
stride, padding and dilation on the three spatial axes, and G groups.
All call sites in the source use dilation 1 and groups 1. -/
def conv3d (cin cout k s p dil G : ℕ) (w : ℕ → ℕ → ℕ → ℕ → ℕ → ℝ)
    (bo : Option (ℕ → ℝ)) (x : Tensor5) : Tensor5 :=
  { n := x.n, c := cout,
    d := convDim x.d k s p, h := convDim x.h k s p, w := convDim x.w k s p,
    dtype := x.dtype, device := x.device,
    data := fun b o z y xx =>
      (∑ j ∈ Finset.range (cin / G), ∑ kz ∈ Finset.range k,
        ∑ ky ∈ Finset.range k, ∑ kx ∈ Finset.range k,
          w o j kz ky kx *
            tAt x b ((o / (cout / G)) * (cin / G) + j)
              ((s * z + dil * kz : ℕ) - (p : ℤ))
              ((s * y + dil * ky : ℕ) - (p : ℤ))
              ((s * xx + dil * kx : ℕ) - (p : ℤ)))
      + (match bo with
         | some bf => bf o
         | none => 0) }

/-- StdConv3d layer state: the nn.Conv3d configuration plus the raw
(trainable) weight and optional bias.  The stored weight has extent
cin / groups on its second axis, as in torch. -/
structure StdConv3d where
  cin : ℕ
  cout : ℕ
  k : ℕ
  stride : ℕ
  pad : ℕ
  dil : ℕ
  groups : ℕ
  weight : ℕ → ℕ → ℕ → ℕ → ℕ → ℝ
  bias : Option (ℕ → ℝ)

/-- Per-output-filter mean of the raw weight over dims [1,2,3,4]
(the mean component of torch.var_mean on those dims). -/
def wMean (L : StdConv3d) (o : ℕ) : ℝ :=
  (∑ j ∈ Finset.range (L.cin / L.groups), ∑ kz ∈ Finset.range L.k,
    ∑ ky ∈ Finset.range L.k, ∑ kx ∈ Finset.range L.k, L.weight o j kz ky kx) /
    ((L.cin / L.groups * (L.k * L.k * L.k) : ℕ) : ℝ)

/-- Per-output-filter biased variance (torch.var_mean with unbiased=False):
the mean of the squared deviations, dividing by the element count N,
not N - 1. -/
def wVar (L : StdConv3d) (o : ℕ) : ℝ :=
  (∑ j ∈ Finset.range (L.cin / L.groups), ∑ kz ∈ Finset.range L.k,
    ∑ ky ∈ Finset.range L.k, ∑ kx ∈ Finset.range L.k,
      (L.weight o j kz ky kx - wMean L o) ^ 2) /
    ((L.cin / L.groups * (L.k * L.k * L.k) : ℕ) : ℝ)

/-- The standardized weight w = (w - m) / sqrt(v + 1e-5) used by
StdConv3d.forward; the epsilon sits inside the square root. -/
def stdWeight (L : StdConv3d) : ℕ → ℕ → ℕ → ℕ → ℕ → ℝ :=
  fun o j kz ky kx =>
    (L.weight o j kz ky kx - wMean L o) / Real.sqrt (wVar L o + 1e-5)

/-- StdConv3d.forward: convolve with the standardized weight; the bias is
passed through to F.conv3d unstandardized. -/
def stdConvForward (L : StdConv3d) (x : Tensor5) : Tensor5 :=
  conv3d L.cin L.cout L.k L.stride L.pad L.dil L.groups (stdWeight L) L.bias x

/-- State-passing view of StdConv3d.forward: the layer (with its stored raw
weight) is returned unchanged next to the output, since the method only
binds a standardized copy to a local. -/
def stdConvForwardSt (L : StdConv3d) (x : Tensor5) : Tensor5 × StdConv3d :=
  (stdConvForward L x, L)

/-- Affine parameters of a group-normalization layer. -/
structure GNParams where
  gw : ℕ → ℝ
  gb : ℕ → ℝ

/-- nn.GroupNorm layer: group count, epsilon, affine parameters. -/
structure GNLayer where
  groups : ℕ
  eps : ℝ
  p : GNParams

/-- nn.GroupNorm semantics: per sample and per group of channels, normalize
by the mean and biased variance over (channels-in-group, D, H, W), then
apply the per-channel affine transform. -/
def gnForward (L : GNLayer) (x : Tensor5) : Tensor5 :=
  { x with data := fun b c z y xx =>
      (x.data b c z y xx -
        (∑ j ∈ Finset.range (x.c / L.groups), ∑ z2 ∈ Finset.range x.d,
          ∑ y2 ∈ Finset.range x.h, ∑ x2 ∈ Finset.range x.w,
            x.data b (c / (x.c / L.groups) * (x.c / L.groups) + j) z2 y2 x2) /
          ((x.c / L.groups * x.d * x.h * x.w : ℕ) : ℝ)) /
        Real.sqrt (
          (∑ j ∈ Finset.range (x.c / L.groups), ∑ z2 ∈ Finset.range x.d,
            ∑ y2 ∈ Finset.range x.h, ∑ x2 ∈ Finset.range x.w,
              (x.data b (c / (x.c / L.groups) * (x.c / L.groups) + j) z2 y2 x2 -
                (∑ j3 ∈ Finset.range (x.c / L.groups), ∑ z3 ∈ Finset.range x.d,
                  ∑ y3 ∈ Finset.range x.h, ∑ x3 ∈ Finset.range x.w,
                    x.data b (c / (x.c / L.groups) * (x.c / L.groups) + j3) z3 y3 x3) /
                  ((x.c / L.groups * x.d * x.h * x.w : ℕ) : ℝ)) ^ 2) /
            ((x.c / L.groups * x.d * x.h * x.w : ℕ) : ℝ) + L.eps) *
        L.p.gw c + L.p.gb c }

/-- nn.ReLU: elementwise max with zero.  The inplace flag has no
functional content. -/
def reluF (x : Tensor5) : Tensor5 :=
  { x with data := fun b c z y xx => max (x.data b c z y xx) 0 }

/-- Elementwise addition (residual + y); both operands share a shape at
every call site in the source. -/
def tAdd (a c : Tensor5) : Tensor5 :=
  { a with data := fun b ch z y xx => a.data b ch z y xx + c.data b ch z y xx }

/-- Python truthiness default: `a or d` for an optional int argument.
None and 0 are both falsy, so 0 selects the default like None does. -/
def pyOr (a : Option ℕ) (dft : ℕ) : ℕ :=
  match a with
  | none => dft
  | some v => if v = 0 then dft else v

/-- Maximum of three values, for the 3-wide pooling window. -/
def max3 (f : ℕ → ℝ) : ℝ := max (f 0) (max (f 1) (f 2))

/-- nn.MaxPool3d(kernel_size=3, stride=2, padding=0). -/
def maxPool3 (x : Tensor5) : Tensor5 :=
  { n := x.n, c := x.c,
    d := (x.d - 3) / 2 + 1, h := (x.h - 3) / 2 + 1, w := (x.w - 3) / 2 + 1,
    dtype := x.dtype, device := x.device,
    data := fun b c z y xx =>
      max3 fun kz => max3 fun ky => max3 fun kx =>
        x.data b c (2 * z + kz) (2 * y + ky) (2 * xx + kx) }

/-- conv3x3_3d: StdConv3d with kernel 3, padding 1, no bias (every call
site passes bias=False), explicit stride and group count, dilation 1.
The weight tensor is supplied by the surrounding initialization. -/
def conv3x3_3d (cin cout stride groups : ℕ)
    (wt : ℕ → ℕ → ℕ → ℕ → ℕ → ℝ) : StdConv3d :=
  { cin := cin, cout := cout, k := 3, stride := stride, pad := 1,
    dil := 1, groups := groups, weight := wt, bias := none }

/-- conv1x1_3d: StdConv3d with kernel 1, padding 0, no bias, groups 1. -/
def conv1x1_3d (cin cout stride : ℕ)
    (wt : ℕ → ℕ → ℕ → ℕ → ℕ → ℝ) : StdConv3d :=
  { cin := cin, cout := cout, k := 1, stride := stride, pad := 0,
    dil := 1, groups := 1, weight := wt, bias := none }

/-- Numeric parameters of one PreActBottleneck_3d unit: the three unit
convolution weights, the projection weight, and the four group-norm
parameter sets.  Initialization values are irrelevant to the claims, so
they are passed in rather than sampled. -/
structure PABParams where
  w1 : ℕ → ℕ → ℕ → ℕ → ℕ → ℝ
  w2 : ℕ → ℕ → ℕ → ℕ → ℕ → ℝ
  w3 : ℕ → ℕ → ℕ → ℕ → ℕ → ℝ
  wP : ℕ → ℕ → ℕ → ℕ → ℕ → ℝ
  g1 : GNParams
  g2 : GNParams
  g3 : GNParams
  gP : GNParams

/-- PreActBottleneck_3d module state: resolved channel configuration, the
three convolution layers with their group norms, and the optional
projection shortcut (present exactly when the constructor created the
downsample/gn_proj attributes). -/
structure PAB where
  cin : ℕ
  cout : ℕ
  cmid : ℕ
  stride : ℕ
  gn1 : GNLayer
  gn2 : GNLayer
  gn3 : GNLayer
  conv1 : StdConv3d
  conv2 : StdConv3d
  conv3 : StdConv3d
  downsample : Option (StdConv3d × GNLayer)

/-- PreActBottleneck_3d.__init__: cout defaults to cin, cmid to cout // 4,
via Python `or` truthiness; gn1/gn2/gn3 use 32 groups and eps 1e-6; the
stride sits on conv2 (the 3x3x3 convolution); the projection shortcut
(1x1x1 conv with the stride, then GroupNorm(cout, cout) with the torch
default eps 1e-5) exists iff stride != 1 or cin != cout. -/
def mkPAB (cin : ℕ) (coutA cmidA : Option ℕ) (stride : ℕ)
    (θ : PABParams) : PAB :=
  { cin := cin,
    cout := pyOr coutA cin,
    cmid := pyOr cmidA (pyOr coutA cin / 4),
    stride := stride,
    gn1 := ⟨32, 1e-6, θ.g1⟩,
    gn2 := ⟨32, 1e-6, θ.g2⟩,
    gn3 := ⟨32, 1e-6, θ.g3⟩,
    conv1 := conv1x1_3d cin (pyOr cmidA (pyOr coutA cin / 4)) 1 θ.w1,
    conv2 := conv3x3_3d (pyOr cmidA (pyOr coutA cin / 4))
      (pyOr cmidA (pyOr coutA cin / 4)) stride 1 θ.w2,
    conv3 := conv1x1_3d (pyOr cmidA (pyOr coutA cin / 4)) (pyOr coutA cin) 1 θ.w3,
    downsample :=
      if stride ≠ 1 ∨ cin ≠ pyOr coutA cin then
        some (conv1x1_3d cin (pyOr coutA cin) stride θ.wP,
          ⟨pyOr coutA cin, 1e-5, θ.gP⟩)
      else none }

/-- Residual branch of PreActBottleneck_3d.forward: the projection path
when the downsample attribute exists, the input unchanged otherwise. -/
def pabResidual (u : PAB) (x : Tensor5) : Tensor5 :=
  match u.downsample with
  | some pr => gnForward pr.2 (stdConvForward pr.1 x)
  | none => x

/-- Unit branch of PreActBottleneck_3d.forward:
relu(gn1(conv1 x)), relu(gn2(conv2 .)), gn3(conv3 .) with no activation
after the third normalization. -/
def pabBranch (u : PAB) (x : Tensor5) : Tensor5 :=
  gnForward u.gn3 (stdConvForward u.conv3
    (reluF (gnForward u.gn2 (stdConvForward u.conv2
      (reluF (gnForward u.gn1 (stdConvForward u.conv1 x)))))))

/-- PreActBottleneck_3d.forward: relu(residual + unit_branch). -/
def pabForward (u : PAB) (x : Tensor5) : Tensor5 :=
  reluF (tAdd (pabResidual u x) (pabBranch u x))

/-- One block of the body: unit1 with the stage stride and channel
transition, then units 2..count each with stride 1 and cin = cout, as in
the three OrderedDict comprehensions of ResNetV2_3D.__init__ (count i
ranges over 2..block_units[k]+1, so count-1 trailing units). -/
def mkBlock (cin cout cmid stride count : ℕ) (θf : ℕ → PABParams) : List PAB :=
  mkPAB cin (some cout) (some cmid) stride (θf 1) ::
    (List.range (count - 1)).map
      (fun j => mkPAB cout (some cout) (some cmid) 1 (θf (j + 2)))

/-- nn.Sequential over a list of bottleneck units. -/
def stageForward (units : List PAB) (x : Tensor5) : Tensor5 :=
  units.foldl (fun a u => pabForward u a) x

/-- Numeric parameters of the whole backbone: root conv weight, root
group-norm parameters, and one parameter family per block (indexed by
unit number). -/
structure ResNetParams where
  rw5 : ℕ → ℕ → ℕ → ℕ → ℕ → ℝ
  rg : GNParams
  t1 : ℕ → PABParams
  t2 : ℕ → PABParams
  t3 : ℕ → PABParams

/-- ResNetV2_3D module state: width, root stem, and the three blocks. -/
structure ResNetV2_3D where
  width : ℕ
  rootConv : StdConv3d
  rootGn : GNLayer
  block1 : List PAB
  block2 : List PAB
  block3 : List PAB

/-- width = int(64 * width_factor).  Python int() truncates toward zero;
for the nonnegative width factors of this model that is the floor. -/
def resWidth (wf : ℚ) : ℕ := (Int.floor (64 * wf)).toNat

/-- ResNetV2_3D.__init__: root stem StdConv3d(cin, width, kernel 7,
stride 2, padding 3, no bias) + GroupNorm(32, width, eps 1e-6) + ReLU,
then the three blocks with widths (4w, 8w, 16w), mid widths (w, 2w, 4w)
and strides (1, 2, 2). -/
def mkResNet (bu : ℕ × ℕ × ℕ) (wf : ℚ) (cin : ℕ) (θ : ResNetParams) :
    ResNetV2_3D :=
  { width := resWidth wf,
    rootConv :=
      { cin := cin, cout := resWidth wf, k := 7, stride := 2, pad := 3,
        dil := 1, groups := 1, weight := θ.rw5, bias := none },
    rootGn := ⟨32, 1e-6, θ.rg⟩,
    block1 := mkBlock (resWidth wf) (resWidth wf * 4) (resWidth wf) 1 bu.1 θ.t1,
    block2 := mkBlock (resWidth wf * 4) (resWidth wf * 8) (resWidth wf * 2) 2
      bu.2.1 θ.t2,
    block3 := mkBlock (resWidth wf * 8) (resWidth wf * 16) (resWidth wf * 4) 2
      bu.2.2 θ.t3 }

/-- The root stem application (conv, gn, relu); its output is the first
feature snapshot, taken before the max-pool. -/
def rootF (net : ResNetV2_3D) (x : Tensor5) : Tensor5 :=
  reluF (gnForward net.rootGn (stdConvForward net.rootConv x))

/-- Intermediate value after block1 (input went root, max-pool, block1). -/
def s1Out (net : ResNetV2_3D) (x : Tensor5) : Tensor5 :=
  stageForward net.block1 (maxPool3 (rootF net x))

/-- Intermediate value after block2. -/
def s2Out (net : ResNetV2_3D) (x : Tensor5) : Tensor5 :=
  stageForward net.block2 (s1Out net x)

/-- Intermediate value after block3, the primary output. -/
def s3Out (net : ResNetV2_3D) (x : Tensor5) : Tensor5 :=
  stageForward net.block3 (s2Out net x)

/-- right_spatial_shape for stage index i: the original extent divided by
4 and by (i+1) with a single floor.  The source divides an int tensor by
4 and by (i+1) in floating point and floors; for the stage indices 0 and
1 used by forward both divisors are powers of two, so the computation is
exact and equals this natural division. -/
def rightShape (n i : ℕ) : ℕ := n / (4 * (i + 1))

/-- The tensor built by the padding branch of ensure_right_shape:
torch.zeros((b, channels, *right_shape), device=x.device) — dtype is the
runtime default since none is passed — with the stage output copied into
the low-index corner by slice assignment. -/
def padT (x : Tensor5) (b : ℕ) (orig : ℕ × ℕ × ℕ) (i : ℕ) : Tensor5 :=
  { n := b, c := x.c,
    d := rightShape orig.1 i, h := rightShape orig.2.1 i,
    w := rightShape orig.2.2 i,
    dtype := defaultDType, device := x.device,
    data := fun bb cc z y xx =>
      if z < x.d ∧ y < x.h ∧ xx < x.w then x.data bb cc z y xx else 0 }

/-- ResNetV2_3D.ensure_right_shape.  If the current spatial shape already
equals the right shape on every axis the stage output itself is returned;
otherwise the per-axis pad = right - current must lie in [0, 3] (the
assert; violation is modelled as none) and the zero tensor with the
corner copy is returned. -/
def ensureRightShape (x : Tensor5) (b : ℕ) (orig : ℕ × ℕ × ℕ) (i : ℕ) :
    Option Tensor5 :=
  if x.d = rightShape orig.1 i ∧ x.h = rightShape orig.2.1 i ∧
      x.w = rightShape orig.2.2 i then
    some x
  else
    if (rightShape orig.1 i : ℤ) - (x.d : ℤ) ≤ 3 ∧
        0 ≤ (rightShape orig.1 i : ℤ) - (x.d : ℤ) ∧
        (rightShape orig.2.1 i : ℤ) - (x.h : ℤ) ≤ 3 ∧
        0 ≤ (rightShape orig.2.1 i : ℤ) - (x.h : ℤ) ∧
        (rightShape orig.2.2 i : ℤ) - (x.w : ℤ) ≤ 3 ∧
        0 ≤ (rightShape orig.2.2 i : ℤ) - (x.w : ℤ) then
      some (padT x b orig i)
    else none

/-- ResNetV2_3D.forward.  b and the original spatial shape are recorded
from the raw input; the root output is snapshot number one; the loop over
range(len(body)-1) visits blocks 1 and 2 (init always builds three
blocks), reconciling each output; block 3 runs last with no snapshot; the
feature list is reversed on return.  A failed assert in
ensure_right_shape aborts the whole call (none). -/
def resForward (net : ResNetV2_3D) (x : Tensor5) :
    Option (Tensor5 × List Tensor5) :=
  match ensureRightShape (s1Out net x) x.n (x.d, x.h, x.w) 0 with
  | none => none
  | some f1 =>
    match ensureRightShape (s2Out net x) x.n (x.d, x.h, x.w) 1 with
    | none => none
    | some f2 =>
      some (s3Out net x, ([rootF net x, f1, f2]).reverse)

/-- A numpy ndarray: a shape and a total data function on index lists. -/
structure NDArray where
  shape : List ℕ
  data : List ℕ → ℝ

/-- numpy transpose with an explicit axes list: requires the axes list to
be a permutation of range(ndim) (otherwise numpy raises, modelled none);
result shape is shape[axes[k]] at position k. -/
def npTranspose (axes : List ℕ) (a : NDArray) : Option NDArray :=
  if axes.length == a.shape.length &&
      (List.range a.shape.length).all (fun m => axes.contains m) then
    some ⟨axes.map (fun ax => a.shape.getD ax 0),
      fun idx => a.data
        ((List.range a.shape.length).map (fun m => idx.getD (axes.indexOf m) 0))⟩
  else none

/-- np2th: possibly convert HWIO to OIHW — with conv=True the array is
transposed with the fixed 4-axis permutation [3, 2, 0, 1] (then handed to
torch.from_numpy, an identity in this model). -/
def np2th (conv : Bool) (a : NDArray) : Option NDArray :=
  if conv then npTranspose [3, 2, 0, 1] a else some a

/-! Concrete instances used to instantiate the theorems below. -/

/-- The all-zero rank-5 weight. -/
def zeroW5 : ℕ → ℕ → ℕ → ℕ → ℕ → ℝ := fun _ _ _ _ _ => 0

/-- Group-norm parameters at their torch initialization (scale 1, shift 0). -/
def oneGN : GNParams := ⟨fun _ => 1, fun _ => 0⟩

/-- A concrete bottleneck parameter set. -/
def pabP0 : PABParams := ⟨zeroW5, zeroW5, zeroW5, zeroW5, oneGN, oneGN, oneGN, oneGN⟩

/-- A concrete backbone parameter set. -/
def resP0 : ResNetParams := ⟨zeroW5, oneGN, fun _ => pabP0, fun _ => pabP0, fun _ => pabP0⟩

/-- A zero tensor of the given shape, default dtype, device 0. -/
def zeroT (n c d h w : ℕ) : Tensor5 :=
  ⟨n, c, d, h, w, DType.f32, 0, zeroW5⟩

/-- Backbone with one unit per block, width factor 1, one input channel. -/
def cxNet : ResNetV2_3D := mkResNet (1, 1, 1) 1 1 resP0

/-- Input with spatial shape 13x13x13 (at least the stem receptive field 7). -/
def cxX13 : Tensor5 := zeroT 1 1 13 13 13

/-- Input with spatial shape 8x8x8, every axis divisible by 4. -/
def cxX8 : Tensor5 := zeroT 1 1 8 8 8

/-- Input with spatial shape 9x9x9, on which both reconciliations match. -/
def w1X : Tensor5 := zeroT 1 1 9 9 9

/-- The primary output of the successful 9x9x9 run. -/
def w1Y : Tensor5 := s3Out cxNet w1X

/-- The skip list of the successful 9x9x9 run. -/
def w1Fs : List Tensor5 := [s2Out cxNet w1X, s1Out cxNet w1X, rootF cxNet w1X]

/-- Concrete input for the bottleneck unit. -/
def w4X : Tensor5 := zeroT 1 64 5 5 5

/-- Stage output matching its right shape (against original (8,8,8), i=0). -/
def w2Match : Tensor5 := zeroT 1 3 2 2 2

/-- Stage output one voxel short on the depth axis. -/
def w2Pad : Tensor5 := zeroT 1 3 1 2 2

/-- Stage output one voxel short, in a non-default dtype. -/
def w10Pad : Tensor5 := ⟨1, 3, 1, 2, 2, DType.f64, 0, zeroW5⟩

/-- Shape-matching stage output in a non-default dtype. -/
def w10Match : Tensor5 := ⟨1, 3, 2, 2, 2, DType.f64, 0, zeroW5⟩

/-- Stage output three voxels short on the depth axis against original
(20,8,8) at stage index 0 (right depth 5, current 2). -/
def w5X : Tensor5 := zeroT 1 2 2 2 2

/-- A rank-5 convolution weight array in (kD, kH, kW, I, O) layout. -/
def hwioW : NDArray := ⟨[3, 3, 3, 1, 64], fun _ => 0⟩

end

/-! Helper lemmas: Python-default resolution, shape propagation through the
layers, and the case analysis of ensure_right_shape. -/

theorem pyOr_pos (v dft : ℕ) (hv : 0 < v) : pyOr (some v) dft = v := by
  unfold pyOr
  exact if_neg (Nat.pos_iff_ne_zero.mp hv)

theorem pyOr_some_self (c : ℕ) : pyOr (some c) c = c := by
  unfold pyOr
  exact ite_self c

@[simp] theorem gnForward_n (L : GNLayer) (x : Tensor5) : (gnForward L x).n = x.n := rfl
@[simp] theorem gnForward_c (L : GNLayer) (x : Tensor5) : (gnForward L x).c = x.c := rfl
@[simp] theorem gnForward_d (L : GNLayer) (x : Tensor5) : (gnForward L x).d = x.d := rfl
@[simp] theorem gnForward_h (L : GNLayer) (x : Tensor5) : (gnForward L x).h = x.h := rfl
@[simp] theorem gnForward_w (L : GNLayer) (x : Tensor5) : (gnForward L x).w = x.w := rfl
@[simp] theorem gnForward_dtype (L : GNLayer) (x : Tensor5) : (gnForward L x).dtype = x.dtype := rfl
@[simp] theorem gnForward_device (L : GNLayer) (x : Tensor5) : (gnForward L x).device = x.device := rfl

@[simp] theorem reluF_n (x : Tensor5) : (reluF x).n = x.n := rfl
@[simp] theorem reluF_c (x : Tensor5) : (reluF x).c = x.c := rfl
@[simp] theorem reluF_d (x : Tensor5) : (reluF x).d = x.d := rfl
@[simp] theorem reluF_h (x : Tensor5) : (reluF x).h = x.h := rfl
@[simp] theorem reluF_w (x : Tensor5) : (reluF x).w = x.w := rfl
@[simp] theorem reluF_dtype (x : Tensor5) : (reluF x).dtype = x.dtype := rfl
@[simp] theorem reluF_device (x : Tensor5) : (reluF x).device = x.device := rfl

@[simp] theorem tAdd_n (a c : Tensor5) : (tAdd a c).n = a.n := rfl
@[simp] theorem tAdd_c (a c : Tensor5) : (tAdd a c).c = a.c := rfl
@[simp] theorem tAdd_d (a c : Tensor5) : (tAdd a c).d = a.d := rfl
@[simp] theorem tAdd_h (a c : Tensor5) : (tAdd a c).h = a.h := rfl
@[simp] theorem tAdd_w (a c : Tensor5) : (tAdd a c).w = a.w := rfl
@[simp] theorem tAdd_dtype (a c : Tensor5) : (tAdd a c).dtype = a.dtype := rfl
@[simp] theorem tAdd_device (a c : Tensor5) : (tAdd a c).device = a.device := rfl

@[simp] theorem stdConvForward_n (L : StdConv3d) (x : Tensor5) : (stdConvForward L x).n = x.n := rfl
@[simp] theorem stdConvForward_c (L : StdConv3d) (x : Tensor5) : (stdConvForward L x).c = L.cout := rfl
@[simp] theorem stdConvForward_d (L : StdConv3d) (x : Tensor5) :
    (stdConvForward L x).d = convDim x.d L.k L.stride L.pad := rfl
@[simp] theorem stdConvForward_h (L : StdConv3d) (x : Tensor5) :
    (stdConvForward L x).h = convDim x.h L.k L.stride L.pad := rfl
@[simp] theorem stdConvForward_w (L : StdConv3d) (x : Tensor5) :
    (stdConvForward L x).w = convDim x.w L.k L.stride L.pad := rfl
@[simp] theorem stdConvForward_dtype (L : StdConv3d) (x : Tensor5) :
    (stdConvForward L x).dtype = x.dtype := rfl
@[simp] theorem stdConvForward_device (L : StdConv3d) (x : Tensor5) :
    (stdConvForward L x).device = x.device := rfl

@[simp] theorem maxPool3_n (x : Tensor5) : (maxPool3 x).n = x.n := rfl
@[simp] theorem maxPool3_c (x : Tensor5) : (maxPool3 x).c = x.c := rfl
@[simp] theorem maxPool3_d (x : Tensor5) : (maxPool3 x).d = (x.d - 3) / 2 + 1 := rfl
@[simp] theorem maxPool3_h (x : Tensor5) : (maxPool3 x).h = (x.h - 3) / 2 + 1 := rfl
@[simp] theorem maxPool3_w (x : Tensor5) : (maxPool3 x).w = (x.w - 3) / 2 + 1 := rfl
@[simp] theorem maxPool3_dtype (x : Tensor5) : (maxPool3 x).dtype = x.dtype := rfl
@[simp] theorem maxPool3_device (x : Tensor5) : (maxPool3 x).device = x.device := rfl

theorem pabForward_res_n (u : PAB) (x : Tensor5) : (pabForward u x).n = (pabResidual u x).n := rfl
theorem pabForward_res_c (u : PAB) (x : Tensor5) : (pabForward u x).c = (pabResidual u x).c := rfl
theorem pabForward_res_d (u : PAB) (x : Tensor5) : (pabForward u x).d = (pabResidual u x).d := rfl
theorem pabForward_res_h (u : PAB) (x : Tensor5) : (pabForward u x).h = (pabResidual u x).h := rfl
theorem pabForward_res_w (u : PAB) (x : Tensor5) : (pabForward u x).w = (pabResidual u x).w := rfl
theorem pabForward_res_dtype (u : PAB) (x : Tensor5) :
    (pabForward u x).dtype = (pabResidual u x).dtype := rfl
theorem pabForward_res_device (u : PAB) (x : Tensor5) :
    (pabForward u x).device = (pabResidual u x).device := rfl

theorem pabResidual_proj (u : PAB) (dc : StdConv3d) (dg : GNLayer) (x : Tensor5)
    (hu : u.downsample = some (dc, dg)) :
    pabResidual u x = gnForward dg (stdConvForward dc x) := by
  simp [pabResidual, hu]

theorem pabResidual_noproj (u : PAB) (x : Tensor5) (hu : u.downsample = none) :
    pabResidual u x = x := by
  simp [pabResidual, hu]

theorem pabForward_noproj_shape (u : PAB) (x : Tensor5)
    (hu : u.downsample = none) :
    (pabForward u x).n = x.n ∧ (pabForward u x).c = x.c ∧
    (pabForward u x).d = x.d ∧ (pabForward u x).h = x.h ∧
    (pabForward u x).w = x.w ∧ (pabForward u x).dtype = x.dtype ∧
    (pabForward u x).device = x.device := by
  refine ⟨?_, ?_, ?_, ?_, ?_, ?_, ?_⟩ <;>
    simp only [pabForward_res_n, pabForward_res_c, pabForward_res_d,
      pabForward_res_h, pabForward_res_w, pabForward_res_dtype,
      pabForward_res_device, pabResidual_noproj u x hu]

theorem pabForward_proj_shape (u : PAB) (dc : StdConv3d) (dg : GNLayer)
    (x : Tensor5) (hu : u.downsample = some (dc, dg)) :
    (pabForward u x).n = x.n ∧ (pabForward u x).c = dc.cout ∧
    (pabForward u x).d = convDim x.d dc.k dc.stride dc.pad ∧
    (pabForward u x).h = convDim x.h dc.k dc.stride dc.pad ∧
    (pabForward u x).w = convDim x.w dc.k dc.stride dc.pad ∧
    (pabForward u x).dtype = x.dtype ∧
    (pabForward u x).device = x.device := by
  refine ⟨?_, ?_, ?_, ?_, ?_, ?_, ?_⟩ <;>
    simp only [pabForward_res_n, pabForward_res_c, pabForward_res_d,
      pabForward_res_h, pabForward_res_w, pabForward_res_dtype,
      pabForward_res_device, pabResidual_proj u dc dg x hu, gnForward_n,
      gnForward_c, gnForward_d, gnForward_h, gnForward_w, gnForward_dtype,
      gnForward_device, stdConvForward_n, stdConvForward_c, stdConvForward_d,
      stdConvForward_h, stdConvForward_w, stdConvForward_dtype,
      stdConvForward_device]

theorem stageTail_shape (l : List PAB) :
    ∀ t : Tensor5, (∀ u ∈ l, u.downsample = none) →
    (stageForward l t).n = t.n ∧ (stageForward l t).c = t.c ∧
    (stageForward l t).d = t.d ∧ (stageForward l t).h = t.h ∧
    (stageForward l t).w = t.w ∧ (stageForward l t).dtype = t.dtype ∧
    (stageForward l t).device = t.device := by
  induction l with
  | nil =>
    intro t _
    exact ⟨rfl, rfl, rfl, rfl, rfl, rfl, rfl⟩
  | cons u l ih =>
    intro t hl
    have hu : u.downsample = none := hl u (List.mem_cons_self u l)
    have h1 := pabForward_noproj_shape u t hu
    have h2 := ih (pabForward u t) (fun v hv => hl v (List.mem_cons_of_mem u hv))
    simp only [stageForward, List.foldl_cons] at h2 ⊢
    exact ⟨h2.1.trans h1.1, h2.2.1.trans h1.2.1, h2.2.2.1.trans h1.2.2.1,
      h2.2.2.2.1.trans h1.2.2.2.1, h2.2.2.2.2.1.trans h1.2.2.2.2.1,
      h2.2.2.2.2.2.1.trans h1.2.2.2.2.2.1, h2.2.2.2.2.2.2.trans h1.2.2.2.2.2.2⟩

theorem mkPAB_downsample_some (cin cout cmid stride : ℕ) (θ : PABParams)
    (hco : 0 < cout) (h : stride ≠ 1 ∨ cin ≠ cout) :
    (mkPAB cin (some cout) (some cmid) stride θ).downsample =
      some (conv1x1_3d cin cout stride θ.wP, ⟨cout, 1e-5, θ.gP⟩) := by
  simp only [mkPAB, pyOr_pos cout cin hco]
  rw [if_pos h]

theorem mkPAB_downsample_none_tail (cout cmid : ℕ) (θ : PABParams) :
    (mkPAB cout (some cout) (some cmid) 1 θ).downsample = none := by
  simp only [mkPAB, pyOr_some_self]
  rw [if_neg]
  simp

theorem mkBlock_tail_noproj (cout cmid count : ℕ) (θf : ℕ → PABParams) :
    ∀ u ∈ (List.range (count - 1)).map
      (fun j => mkPAB cout (some cout) (some cmid) 1 (θf (j + 2))),
      u.downsample = none := by
  intro u hu
  obtain ⟨j, _, rfl⟩ := List.mem_map.mp hu
  exact mkPAB_downsample_none_tail cout cmid (θf (j + 2))

theorem stage_shape (cin cout cmid stride count : ℕ) (θf : ℕ → PABParams)
    (x : Tensor5) (hco : 0 < cout) (h : stride ≠ 1 ∨ cin ≠ cout) :
    (stageForward (mkBlock cin cout cmid stride count θf) x).n = x.n ∧
    (stageForward (mkBlock cin cout cmid stride count θf) x).c = cout ∧
    (stageForward (mkBlock cin cout cmid stride count θf) x).d =
      (x.d - 1) / stride + 1 ∧
    (stageForward (mkBlock cin cout cmid stride count θf) x).h =
      (x.h - 1) / stride + 1 ∧
    (stageForward (mkBlock cin cout cmid stride count θf) x).w =
      (x.w - 1) / stride + 1 ∧
    (stageForward (mkBlock cin cout cmid stride count θf) x).dtype = x.dtype ∧
    (stageForward (mkBlock cin cout cmid stride count θf) x).device =
      x.device := by
  have hds := mkPAB_downsample_some cin cout cmid stride (θf 1) hco h
  have h1 := pabForward_proj_shape
    (mkPAB cin (some cout) (some cmid) stride (θf 1)) _ _ x hds
  have htail := stageTail_shape
    ((List.range (count - 1)).map
      (fun j => mkPAB cout (some cout) (some cmid) 1 (θf (j + 2))))
    (pabForward (mkPAB cin (some cout) (some cmid) stride (θf 1)) x)
    (mkBlock_tail_noproj cout cmid count θf)
  simp only [conv1x1_3d, convDim, Nat.mul_zero, Nat.add_zero] at h1
  simp only [mkBlock, stageForward, List.foldl_cons] at htail ⊢
  exact ⟨htail.1.trans h1.1, htail.2.1.trans h1.2.1,
    htail.2.2.1.trans h1.2.2.1, htail.2.2.2.1.trans h1.2.2.2.1,
    htail.2.2.2.2.1.trans h1.2.2.2.2.1,
    htail.2.2.2.2.2.1.trans h1.2.2.2.2.2.1,
    htail.2.2.2.2.2.2.trans h1.2.2.2.2.2.2⟩

theorem rootF_mkResNet_shape (bu : ℕ × ℕ × ℕ) (wf : ℚ) (cin : ℕ)
    (θ : ResNetParams) (x : Tensor5) :
    (rootF (mkResNet bu wf cin θ) x).n = x.n ∧
    (rootF (mkResNet bu wf cin θ) x).c = resWidth wf ∧
    (rootF (mkResNet bu wf cin θ) x).d = (x.d - 1) / 2 + 1 ∧
    (rootF (mkResNet bu wf cin θ) x).h = (x.h - 1) / 2 + 1 ∧
    (rootF (mkResNet bu wf cin θ) x).w = (x.w - 1) / 2 + 1 ∧
    (rootF (mkResNet bu wf cin θ) x).dtype = x.dtype ∧
    (rootF (mkResNet bu wf cin θ) x).device = x.device := by
  refine ⟨?_, ?_, ?_, ?_, ?_, ?_, ?_⟩ <;>
    simp [rootF, mkResNet, convDim]

theorem s1Out_shape (bu : ℕ × ℕ × ℕ) (wf : ℚ) (cin : ℕ) (θ : ResNetParams)
    (x : Tensor5) (hw : 0 < resWidth wf) :
    (s1Out (mkResNet bu wf cin θ) x).n = x.n ∧
    (s1Out (mkResNet bu wf cin θ) x).c = resWidth wf * 4 ∧
    (s1Out (mkResNet bu wf cin θ) x).d = ((x.d - 1) / 2 + 1 - 3) / 2 + 1 ∧
    (s1Out (mkResNet bu wf cin θ) x).h = ((x.h - 1) / 2 + 1 - 3) / 2 + 1 ∧
    (s1Out (mkResNet bu wf cin θ) x).w = ((x.w - 1) / 2 + 1 - 3) / 2 + 1 ∧
    (s1Out (mkResNet bu wf cin θ) x).dtype = x.dtype ∧
    (s1Out (mkResNet bu wf cin θ) x).device = x.device := by
  obtain ⟨r1, r2, r3, r4, r5, r6, r7⟩ := rootF_mkResNet_shape bu wf cin θ x
  obtain ⟨e1, e2, e3, e4, e5, e6, e7⟩ :=
    stage_shape (resWidth wf) (resWidth wf * 4) (resWidth wf) 1 bu.1 θ.t1
      (maxPool3 (rootF (mkResNet bu wf cin θ) x)) (by omega) (Or.inr (by omega))
  have hb1 : (mkResNet bu wf cin θ).block1 =
      mkBlock (resWidth wf) (resWidth wf * 4) (resWidth wf) 1 bu.1 θ.t1 := rfl
  refine ⟨?_, ?_, ?_, ?_, ?_, ?_, ?_⟩ <;>
    simp only [s1Out, hb1, e1, e2, e3, e4, e5, e6, e7, maxPool3_n, maxPool3_c,
      maxPool3_d, maxPool3_h, maxPool3_w, maxPool3_dtype, maxPool3_device,
      r1, r2, r3, r4, r5, r6, r7] <;> omega

theorem s2Out_shape (bu : ℕ × ℕ × ℕ) (wf : ℚ) (cin : ℕ) (θ : ResNetParams)
    (x : Tensor5) (hw : 0 < resWidth wf) :
    (s2Out (mkResNet bu wf cin θ) x).n = x.n ∧
    (s2Out (mkResNet bu wf cin θ) x).c = resWidth wf * 8 ∧
    (s2Out (mkResNet bu wf cin θ) x).d =
      (((x.d - 1) / 2 + 1 - 3) / 2 + 1 - 1) / 2 + 1 ∧
    (s2Out (mkResNet bu wf cin θ) x).h =
      (((x.h - 1) / 2 + 1 - 3) / 2 + 1 - 1) / 2 + 1 ∧
    (s2Out (mkResNet bu wf cin θ) x).w =
      (((x.w - 1) / 2 + 1 - 3) / 2 + 1 - 1) / 2 + 1 ∧
    (s2Out (mkResNet bu wf cin θ) x).dtype = x.dtype ∧
    (s2Out (mkResNet bu wf cin θ) x).device = x.device := by
  obtain ⟨r1, r2, r3, r4, r5, r6, r7⟩ := s1Out_shape bu wf cin θ x hw
  obtain ⟨e1, e2, e3, e4, e5, e6, e7⟩ :=
    stage_shape (resWidth wf * 4) (resWidth wf * 8) (resWidth wf * 2) 2 bu.2.1
      θ.t2 (s1Out (mkResNet bu wf cin θ) x) (by omega) (Or.inl (by omega))
  have hb2 : (mkResNet bu wf cin θ).block2 =
      mkBlock (resWidth wf * 4) (resWidth wf * 8) (resWidth wf * 2) 2 bu.2.1
        θ.t2 := rfl
  refine ⟨?_, ?_, ?_, ?_, ?_, ?_, ?_⟩ <;>
    simp only [s2Out, hb2, e1, e2, e3, e4, e5, e6, e7, r1, r2, r3, r4, r5, r6,
      r7]

theorem s3Out_shape (bu : ℕ × ℕ × ℕ) (wf : ℚ) (cin : ℕ) (θ : ResNetParams)
    (x : Tensor5) (hw : 0 < resWidth wf) :
    (s3Out (mkResNet bu wf cin θ) x).n = x.n ∧
    (s3Out (mkResNet bu wf cin θ) x).c = resWidth wf * 16 ∧
    (s3Out (mkResNet bu wf cin θ) x).dtype = x.dtype ∧
    (s3Out (mkResNet bu wf cin θ) x).device = x.device := by
  obtain ⟨r1, r2, r3, r4, r5, r6, r7⟩ := s2Out_shape bu wf cin θ x hw
  obtain ⟨e1, e2, e3, e4, e5, e6, e7⟩ :=
    stage_shape (resWidth wf * 8) (resWidth wf * 16) (resWidth wf * 4) 2 bu.2.2
      θ.t3 (s2Out (mkResNet bu wf cin θ) x) (by omega) (Or.inl (by omega))
  have hb3 : (mkResNet bu wf cin θ).block3 =
      mkBlock (resWidth wf * 8) (resWidth wf * 16) (resWidth wf * 4) 2 bu.2.2
        θ.t3 := rfl
  exact ⟨by simp only [s3Out, hb3, e1, r1], by simp only [s3Out, hb3, e2],
    by simp only [s3Out, hb3, e6, r6], by simp only [s3Out, hb3, e7, r7]⟩

theorem ers_eq_case (x : Tensor5) (b : ℕ) (orig : ℕ × ℕ × ℕ) (i : ℕ)
    (h1 : x.d = rightShape orig.1 i) (h2 : x.h = rightShape orig.2.1 i)
    (h3 : x.w = rightShape orig.2.2 i) :
    ensureRightShape x b orig i = some x := by
  unfold ensureRightShape
  rw [if_pos ⟨h1, h2, h3⟩]

theorem ers_pad_case (x : Tensor5) (b : ℕ) (orig : ℕ × ℕ × ℕ) (i : ℕ)
    (hne : ¬(x.d = rightShape orig.1 i ∧ x.h = rightShape orig.2.1 i ∧
      x.w = rightShape orig.2.2 i))
    (hband : (rightShape orig.1 i : ℤ) - (x.d : ℤ) ≤ 3 ∧
      0 ≤ (rightShape orig.1 i : ℤ) - (x.d : ℤ) ∧
      (rightShape orig.2.1 i : ℤ) - (x.h : ℤ) ≤ 3 ∧
      0 ≤ (rightShape orig.2.1 i : ℤ) - (x.h : ℤ) ∧
      (rightShape orig.2.2 i : ℤ) - (x.w : ℤ) ≤ 3 ∧
      0 ≤ (rightShape orig.2.2 i : ℤ) - (x.w : ℤ)) :
    ensureRightShape x b orig i = some (padT x b orig i) := by
  unfold ensureRightShape
  rw [if_neg hne, if_pos hband]

theorem ers_none_case (x : Tensor5) (b : ℕ) (orig : ℕ × ℕ × ℕ) (i : ℕ)
    (hne : ¬(x.d = rightShape orig.1 i ∧ x.h = rightShape orig.2.1 i ∧
      x.w = rightShape orig.2.2 i))
    (hnb : ¬((rightShape orig.1 i : ℤ) - (x.d : ℤ) ≤ 3 ∧
      0 ≤ (rightShape orig.1 i : ℤ) - (x.d : ℤ) ∧
      (rightShape orig.2.1 i : ℤ) - (x.h : ℤ) ≤ 3 ∧
      0 ≤ (rightShape orig.2.1 i : ℤ) - (x.h : ℤ) ∧
      (rightShape orig.2.2 i : ℤ) - (x.w : ℤ) ≤ 3 ∧
      0 ≤ (rightShape orig.2.2 i : ℤ) - (x.w : ℤ))) :
    ensureRightShape x b orig i = none := by
  unfold ensureRightShape
  rw [if_neg hne, if_neg hnb]

theorem ers_some_c (x : Tensor5) (b : ℕ) (orig : ℕ × ℕ × ℕ) (i : ℕ)
    (f : Tensor5) (hf : ensureRightShape x b orig i = some f) : f.c = x.c := by
  unfold ensureRightShape at hf
  split_ifs at hf with h1 h2
  · simp only [Option.some.injEq] at hf
    rw [← hf]
  · simp only [Option.some.injEq] at hf
    rw [← hf]
    rfl

/-! The claims. -/

/-- Claim C3: StdConv3d.forward performs the convolution with the
standardized weight (W - mean) / sqrt(var + 1e-5), where the mean and the
biased variance (divide by N = (I/groups)*kD*kH*kW, not N - 1) are taken
per output filter over the (I, kD, kH, kW) axes, the epsilon sits inside
the square root, the optional bias is passed to the convolution
unstandardized, and the stored raw weight is not mutated by the call
(the state-passing view returns the layer unchanged, so standardization
is recomputed from the raw weight on every forward call). -/
theorem c3_weight_standardization (L : StdConv3d) (x : Tensor5) :
    stdConvForward L x =
      conv3d L.cin L.cout L.k L.stride L.pad L.dil L.groups
        (fun o j kz ky kx =>
          (L.weight o j kz ky kx -
              (∑ j2 ∈ Finset.range (L.cin / L.groups), ∑ kz2 ∈ Finset.range L.k,
                ∑ ky2 ∈ Finset.range L.k, ∑ kx2 ∈ Finset.range L.k,
                  L.weight o j2 kz2 ky2 kx2) /
                ((L.cin / L.groups * (L.k * L.k * L.k) : ℕ) : ℝ)) /
            Real.sqrt (
              (∑ j2 ∈ Finset.range (L.cin / L.groups), ∑ kz2 ∈ Finset.range L.k,
                ∑ ky2 ∈ Finset.range L.k, ∑ kx2 ∈ Finset.range L.k,
                  (L.weight o j2 kz2 ky2 kx2 -
                    (∑ j3 ∈ Finset.range (L.cin / L.groups),
                      ∑ kz3 ∈ Finset.range L.k, ∑ ky3 ∈ Finset.range L.k,
                        ∑ kx3 ∈ Finset.range L.k, L.weight o j3 kz3 ky3 kx3) /
                      ((L.cin / L.groups * (L.k * L.k * L.k) : ℕ) : ℝ)) ^ 2) /
                ((L.cin / L.groups * (L.k * L.k * L.k) : ℕ) : ℝ) + 1e-5))
        L.bias x ∧
    stdConvForwardSt L x = (stdConvForward L x, L) :=
  ⟨rfl, rfl⟩

/-- Claim C9: at the PreActBottleneck_3d construction interface, passing
cout = 0 is indistinguishable from leaving cout unspecified (the unit
uses cout = cin), and passing cmid = 0 is indistinguishable from leaving
cmid unspecified (cmid = cout // 4): the defaults are applied by Python
truthiness of the value, not by argument absence. -/
theorem c9_zero_defaults (cin stride : ℕ) (coA cmA : Option ℕ)
    (θ : PABParams) :
    mkPAB cin (some 0) cmA stride θ = mkPAB cin none cmA stride θ ∧
    mkPAB cin coA (some 0) stride θ = mkPAB cin coA none stride θ :=
  ⟨rfl, rfl⟩

/-- Claim C8 (code evaluated at the failing input): np2th with conv=True
applies the fixed 4-axis permutation [3, 2, 0, 1]; on a rank-5
convolution weight stored in (kD, kH, kW, I, O) order the axes list does
not match the array rank and numpy raises (modelled none), so the claimed
(kD,kH,kW,I,O) to (O,I,kD,kH,kW) conversion never happens. -/
theorem c8_np2th_rank5_error : np2th true hwioW = none := rfl

/-- Claim C4: a PreActBottleneck_3d unit built from (cin, cout, cmid,
stride) computes relu(residual + branch) where the residual is the
projection path (1x1x1 standardized convolution with the given stride and
no bias to cout channels, then GroupNorm with cout groups and the torch
default eps) exactly when stride != 1 or cin != cout and is the input
unchanged otherwise, and the branch is relu(gn32(conv1x1x1)) then
relu(gn32(conv3x3x3 carrying the stride)) then gn32(conv1x1x1) with no
activation after the third normalization; the three unit convolutions
have kernel sizes 1, 3, 1, the stride sits on the second, none has a
bias, and the three unit norms use 32 groups and eps 1e-6. -/
theorem c4_bottleneck_forward (cin cout cmid stride : ℕ) (θ : PABParams)
    (x : Tensor5) (hco : 0 < cout) (hcm : 0 < cmid) :
    (pabForward (mkPAB cin (some cout) (some cmid) stride θ) x =
      reluF (tAdd
        (if stride ≠ 1 ∨ cin ≠ cout then
          gnForward ⟨cout, 1e-5, θ.gP⟩
            (stdConvForward (conv1x1_3d cin cout stride θ.wP) x)
        else x)
        (gnForward ⟨32, 1e-6, θ.g3⟩
          (stdConvForward (conv1x1_3d cmid cout 1 θ.w3)
            (reluF (gnForward ⟨32, 1e-6, θ.g2⟩
              (stdConvForward (conv3x3_3d cmid cmid stride 1 θ.w2)
                (reluF (gnForward ⟨32, 1e-6, θ.g1⟩
                  (stdConvForward (conv1x1_3d cin cmid 1 θ.w1) x)))))))))) ∧
    (mkPAB cin (some cout) (some cmid) stride θ).conv2.k = 3 ∧
    (mkPAB cin (some cout) (some cmid) stride θ).conv2.stride = stride ∧
    (mkPAB cin (some cout) (some cmid) stride θ).conv1.k = 1 ∧
    (mkPAB cin (some cout) (some cmid) stride θ).conv1.stride = 1 ∧
    (mkPAB cin (some cout) (some cmid) stride θ).conv3.k = 1 ∧
    (mkPAB cin (some cout) (some cmid) stride θ).conv3.stride = 1 ∧
    (mkPAB cin (some cout) (some cmid) stride θ).conv1.bias = none ∧
    (mkPAB cin (some cout) (some cmid) stride θ).conv2.bias = none ∧
    (mkPAB cin (some cout) (some cmid) stride θ).conv3.bias = none ∧
    (mkPAB cin (some cout) (some cmid) stride θ).gn1.groups = 32 ∧
    (mkPAB cin (some cout) (some cmid) stride θ).gn2.groups = 32 ∧
    (mkPAB cin (some cout) (some cmid) stride θ).gn3.groups = 32 ∧
    (mkPAB cin (some cout) (some cmid) stride θ).gn1.eps = 1e-6 ∧
    (mkPAB cin (some cout) (some cmid) stride θ).gn2.eps = 1e-6 ∧
    (mkPAB cin (some cout) (some cmid) stride θ).gn3.eps = 1e-6 := by
  have hc : ∀ dft, pyOr (some cout) dft = cout :=
    fun dft => pyOr_pos cout dft hco
  have hm : ∀ dft, pyOr (some cmid) dft = cmid :=
    fun dft => pyOr_pos cmid dft hcm
  refine ⟨?_, rfl, rfl, rfl, rfl, rfl, rfl, rfl, rfl, rfl, rfl, rfl, rfl,
    rfl, rfl, rfl⟩
  by_cases h : stride ≠ 1 ∨ cin ≠ cout
  · simp only [pabForward, pabResidual, pabBranch, mkPAB, hc, hm, if_pos h]
  · simp only [pabForward, pabResidual, pabBranch, mkPAB, hc, hm, if_neg h]

/-- Witness for claim C4 at cin 64, cout 256, cmid 64, stride 1: the
projection condition holds through cin != cout, so the residual is the
projection path. -/
theorem c4_witness :
    0 < (256 : ℕ) ∧ 0 < (64 : ℕ) ∧
    pabForward (mkPAB 64 (some 256) (some 64) 1 pabP0) w4X =
      reluF (tAdd
        (gnForward ⟨256, 1e-5, pabP0.gP⟩
          (stdConvForward (conv1x1_3d 64 256 1 pabP0.wP) w4X))
        (gnForward ⟨32, 1e-6, pabP0.g3⟩
          (stdConvForward (conv1x1_3d 64 256 1 pabP0.w3)
            (reluF (gnForward ⟨32, 1e-6, pabP0.g2⟩
              (stdConvForward (conv3x3_3d 64 64 1 1 pabP0.w2)
                (reluF (gnForward ⟨32, 1e-6, pabP0.g1⟩
                  (stdConvForward (conv1x1_3d 64 64 1 pabP0.w1) w4X))))))))) := by
  refine ⟨by norm_num, by norm_num, ?_⟩
  have h :=
    (c4_bottleneck_forward 64 256 64 1 pabP0 w4X (by norm_num) (by norm_num)).1
  rw [h, if_pos (by norm_num : (1 : ℕ) ≠ 1 ∨ (64 : ℕ) ≠ 256)]

/-- width for width_factor 1. -/
theorem resWidth_one : resWidth 1 = 64 := by
  norm_num [resWidth]
  rfl

/-- On the 13-cubed input, the stage-1 reconciliation matches exactly
(stage-1 spatial extent 3 = floor(13/4)). -/
theorem cx13_s1 :
    ensureRightShape (s1Out cxNet cxX13) cxX13.n (cxX13.d, cxX13.h, cxX13.w)
      0 = some (s1Out cxNet cxX13) := by
  obtain ⟨e1, e2, e3, e4, e5, e6, e7⟩ :=
    s1Out_shape (1, 1, 1) 1 1 resP0 cxX13 (by rw [resWidth_one]; omega)
  have hnet : cxNet = mkResNet (1, 1, 1) 1 1 resP0 := rfl
  rw [hnet]
  refine ers_eq_case _ _ _ _ ?_ ?_ ?_
  · rw [e3]
    decide
  · rw [e4]
    decide
  · rw [e5]
    decide

/-- On the 13-cubed input, the stage-2 output has spatial extent 2 while
the right shape is floor(13/8) = 1: the pad is -1 and the assert fires. -/
theorem cx13_s2_none :
    ensureRightShape (s2Out cxNet cxX13) cxX13.n (cxX13.d, cxX13.h, cxX13.w)
      1 = none := by
  obtain ⟨e1, e2, e3, e4, e5, e6, e7⟩ :=
    s2Out_shape (1, 1, 1) 1 1 resP0 cxX13 (by rw [resWidth_one]; omega)
  have hnet : cxNet = mkResNet (1, 1, 1) 1 1 resP0 := rfl
  rw [hnet]
  refine ers_none_case _ _ _ _ ?_ ?_ <;> rw [e3, e4, e5] <;> decide

/-- Claim C2: ensure_right_shape computes the right shape
floor(original / 4 / (i+1)) per axis; when the stage output already has
that shape it is returned itself (no copy); otherwise (with the pads in
band) the returned snapshot is a zero tensor of shape
(b, channels, right shape) on which the stage output was copied into the
low-index corner, every other entry being exactly zero, as shown by the
explicit returned literal. -/
theorem c2_snapshot_semantics :
    (∀ (x : Tensor5) (b : ℕ) (orig : ℕ × ℕ × ℕ) (i : ℕ),
      x.d = orig.1 / (4 * (i + 1)) → x.h = orig.2.1 / (4 * (i + 1)) →
      x.w = orig.2.2 / (4 * (i + 1)) →
      ensureRightShape x b orig i = some x) ∧
    (∀ (x : Tensor5) (b : ℕ) (orig : ℕ × ℕ × ℕ) (i : ℕ),
      ¬(x.d = orig.1 / (4 * (i + 1)) ∧ x.h = orig.2.1 / (4 * (i + 1)) ∧
        x.w = orig.2.2 / (4 * (i + 1))) →
      ((orig.1 / (4 * (i + 1)) : ℕ) : ℤ) - (x.d : ℤ) ≤ 3 →
      0 ≤ ((orig.1 / (4 * (i + 1)) : ℕ) : ℤ) - (x.d : ℤ) →
      ((orig.2.1 / (4 * (i + 1)) : ℕ) : ℤ) - (x.h : ℤ) ≤ 3 →
      0 ≤ ((orig.2.1 / (4 * (i + 1)) : ℕ) : ℤ) - (x.h : ℤ) →
      ((orig.2.2 / (4 * (i + 1)) : ℕ) : ℤ) - (x.w : ℤ) ≤ 3 →
      0 ≤ ((orig.2.2 / (4 * (i + 1)) : ℕ) : ℤ) - (x.w : ℤ) →
      ensureRightShape x b orig i =
        some { n := b, c := x.c,
               d := orig.1 / (4 * (i + 1)), h := orig.2.1 / (4 * (i + 1)),
               w := orig.2.2 / (4 * (i + 1)),
               dtype := defaultDType, device := x.device,
               data := fun bb cc z y xx =>
                 if z < x.d ∧ y < x.h ∧ xx < x.w then x.data bb cc z y xx
                 else 0 }) := by
  constructor
  · intro x b orig i h1 h2 h3
    exact ers_eq_case x b orig i h1 h2 h3
  · intro x b orig i hne p1 p2 p3 p4 p5 p6
    exact ers_pad_case x b orig i hne ⟨p1, p2, p3, p4, p5, p6⟩

/-- Witness for claim C2: a matching stage output is returned unchanged;
a stage output one voxel short on depth is rebuilt at the right shape
with the corner copy. -/
theorem c2_witness :
    w2Match.d = 8 / (4 * (0 + 1)) ∧ w2Match.h = 8 / (4 * (0 + 1)) ∧
    w2Match.w = 8 / (4 * (0 + 1)) ∧
    ensureRightShape w2Match 1 (8, 8, 8) 0 = some w2Match ∧
    ¬(w2Pad.d = 8 / (4 * (0 + 1)) ∧ w2Pad.h = 8 / (4 * (0 + 1)) ∧
      w2Pad.w = 8 / (4 * (0 + 1))) ∧
    ensureRightShape w2Pad 1 (8, 8, 8) 0 =
      some { n := 1, c := w2Pad.c,
             d := 8 / (4 * (0 + 1)), h := 8 / (4 * (0 + 1)),
             w := 8 / (4 * (0 + 1)),
             dtype := defaultDType, device := w2Pad.device,
             data := fun bb cc z y xx =>
               if z < w2Pad.d ∧ y < w2Pad.h ∧ xx < w2Pad.w then
                 w2Pad.data bb cc z y xx
               else 0 } := by
  refine ⟨by decide, by decide, by decide, ?_, by decide, ?_⟩
  · exact c2_snapshot_semantics.1 w2Match 1 (8, 8, 8) 0 (by decide) (by decide)
      (by decide)
  · exact c2_snapshot_semantics.2 w2Pad 1 (8, 8, 8) 0 (by decide) (by decide)
      (by decide) (by decide) (by decide) (by decide) (by decide)

/-- Claim C5: the reconciliation aborts (assert) exactly when some axis
has pad = right - current outside [0, 3]; whenever every pad is in band
the call returns a snapshot whose entries outside the copied corner are
exactly zero (covering the boundary pad = 3); and an abort inside either
loop iteration of forward propagates: forward itself returns the error
with no retry and no fallback. -/
theorem c5_abort_characterization :
    (∀ (x : Tensor5) (b : ℕ) (orig : ℕ × ℕ × ℕ) (i : ℕ),
      ensureRightShape x b orig i = none ↔
        ((rightShape orig.1 i : ℤ) - (x.d : ℤ) < 0 ∨
         3 < (rightShape orig.1 i : ℤ) - (x.d : ℤ) ∨
         (rightShape orig.2.1 i : ℤ) - (x.h : ℤ) < 0 ∨
         3 < (rightShape orig.2.1 i : ℤ) - (x.h : ℤ) ∨
         (rightShape orig.2.2 i : ℤ) - (x.w : ℤ) < 0 ∨
         3 < (rightShape orig.2.2 i : ℤ) - (x.w : ℤ))) ∧
    (∀ (x : Tensor5) (b : ℕ) (orig : ℕ × ℕ × ℕ) (i : ℕ),
      ((rightShape orig.1 i : ℤ) - (x.d : ℤ) ≤ 3 ∧
        0 ≤ (rightShape orig.1 i : ℤ) - (x.d : ℤ) ∧
        (rightShape orig.2.1 i : ℤ) - (x.h : ℤ) ≤ 3 ∧
        0 ≤ (rightShape orig.2.1 i : ℤ) - (x.h : ℤ) ∧
        (rightShape orig.2.2 i : ℤ) - (x.w : ℤ) ≤ 3 ∧
        0 ≤ (rightShape orig.2.2 i : ℤ) - (x.w : ℤ)) →
      ∃ feat, ensureRightShape x b orig i = some feat ∧
        ∀ bb cc z y xx, z < feat.d → y < feat.h → xx < feat.w →
          x.d ≤ z ∨ x.h ≤ y ∨ x.w ≤ xx → feat.data bb cc z y xx = 0) ∧
    (∀ (bu : ℕ × ℕ × ℕ) (wf : ℚ) (cin : ℕ) (θ : ResNetParams) (x : Tensor5),
      ensureRightShape (s1Out (mkResNet bu wf cin θ) x) x.n
        (x.d, x.h, x.w) 0 = none →
      resForward (mkResNet bu wf cin θ) x = none) ∧
    (∀ (bu : ℕ × ℕ × ℕ) (wf : ℚ) (cin : ℕ) (θ : ResNetParams) (x : Tensor5)
      (f1 : Tensor5),
      ensureRightShape (s1Out (mkResNet bu wf cin θ) x) x.n
        (x.d, x.h, x.w) 0 = some f1 →
      ensureRightShape (s2Out (mkResNet bu wf cin θ) x) x.n
        (x.d, x.h, x.w) 1 = none →
      resForward (mkResNet bu wf cin θ) x = none) := by
  refine ⟨?_, ?_, ?_, ?_⟩
  · intro x b orig i
    unfold ensureRightShape
    by_cases h1 : x.d = rightShape orig.1 i ∧ x.h = rightShape orig.2.1 i ∧
      x.w = rightShape orig.2.2 i
    · rw [if_pos h1]
      obtain ⟨e1, e2, e3⟩ := h1
      constructor
      · intro hc
        cases hc
      · intro hc
        exfalso
        omega
    · by_cases h2 : (rightShape orig.1 i : ℤ) - (x.d : ℤ) ≤ 3 ∧
        0 ≤ (rightShape orig.1 i : ℤ) - (x.d : ℤ) ∧
        (rightShape orig.2.1 i : ℤ) - (x.h : ℤ) ≤ 3 ∧
        0 ≤ (rightShape orig.2.1 i : ℤ) - (x.h : ℤ) ∧
        (rightShape orig.2.2 i : ℤ) - (x.w : ℤ) ≤ 3 ∧
        0 ≤ (rightShape orig.2.2 i : ℤ) - (x.w : ℤ)
      · rw [if_neg h1, if_pos h2]
        obtain ⟨p1, p2, p3, p4, p5, p6⟩ := h2
        constructor
        · intro hc
          cases hc
        · intro hc
          exfalso
          omega
      · rw [if_neg h1, if_neg h2]
        constructor
        · intro _
          omega
        · intro _
          rfl
  · intro x b orig i hband
    by_cases h1 : x.d = rightShape orig.1 i ∧ x.h = rightShape orig.2.1 i ∧
      x.w = rightShape orig.2.2 i
    · refine ⟨x, ers_eq_case x b orig i h1.1 h1.2.1 h1.2.2, ?_⟩
      intro bb cc z y xx hz hy hx hout
      exfalso
      omega
    · refine ⟨padT x b orig i, ers_pad_case x b orig i h1 hband, ?_⟩
      intro bb cc z y xx hz hy hx hout
      show (if z < x.d ∧ y < x.h ∧ xx < x.w then x.data bb cc z y xx else 0)
        = 0
      rw [if_neg (by omega)]
  · intro bu wf cin θ x h
    simp only [resForward, h]
  · intro bu wf cin θ x f1 h1 h2
    simp only [resForward, h1, h2]

/-- Witness for claim C5: a depth discrepancy of exactly 3 (right 5,
current 2) stays in band, so the abort condition is false and a zero
padded snapshot exists; the 13-cubed run shows a negative stage-2 pad
aborting the whole forward pass. -/
theorem c5_witness :
    (ensureRightShape w5X 1 (20, 8, 8) 0 = none ↔
      ((rightShape 20 0 : ℤ) - (w5X.d : ℤ) < 0 ∨
       3 < (rightShape 20 0 : ℤ) - (w5X.d : ℤ) ∨
       (rightShape 8 0 : ℤ) - (w5X.h : ℤ) < 0 ∨
       3 < (rightShape 8 0 : ℤ) - (w5X.h : ℤ) ∨
       (rightShape 8 0 : ℤ) - (w5X.w : ℤ) < 0 ∨
       3 < (rightShape 8 0 : ℤ) - (w5X.w : ℤ))) ∧
    (∃ feat, ensureRightShape w5X 1 (20, 8, 8) 0 = some feat ∧
      ∀ bb cc z y xx, z < feat.d → y < feat.h → xx < feat.w →
        w5X.d ≤ z ∨ w5X.h ≤ y ∨ w5X.w ≤ xx → feat.data bb cc z y xx = 0) ∧
    resForward cxNet cxX13 = none := by
  refine ⟨c5_abort_characterization.1 w5X 1 (20, 8, 8) 0, ?_, ?_⟩
  · exact c5_abort_characterization.2.1 w5X 1 (20, 8, 8) 0
      ⟨by decide, by decide, by decide, by decide, by decide, by decide⟩
  · exact c5_abort_characterization.2.2.2 (1, 1, 1) 1 1 resP0 cxX13
      (s1Out cxNet cxX13) cx13_s1 cx13_s2_none

/-- Claim C10: when reconciliation pads, the snapshot is allocated on the
input tensor device but with the runtime default floating dtype, not the
stage output dtype, so under a non-default dtype the padded snapshot
dtype differs from the stage output dtype; unpadded snapshots are the
stage outputs themselves and keep their dtype. -/
theorem c10_padded_snapshot_dtype :
    (∀ (x : Tensor5) (b : ℕ) (orig : ℕ × ℕ × ℕ) (i : ℕ),
      ¬(x.d = rightShape orig.1 i ∧ x.h = rightShape orig.2.1 i ∧
        x.w = rightShape orig.2.2 i) →
      ((rightShape orig.1 i : ℤ) - (x.d : ℤ) ≤ 3 ∧
        0 ≤ (rightShape orig.1 i : ℤ) - (x.d : ℤ) ∧
        (rightShape orig.2.1 i : ℤ) - (x.h : ℤ) ≤ 3 ∧
        0 ≤ (rightShape orig.2.1 i : ℤ) - (x.h : ℤ) ∧
        (rightShape orig.2.2 i : ℤ) - (x.w : ℤ) ≤ 3 ∧
        0 ≤ (rightShape orig.2.2 i : ℤ) - (x.w : ℤ)) →
      ∃ feat, ensureRightShape x b orig i = some feat ∧
        feat.dtype = defaultDType ∧ feat.device = x.device ∧
        (x.dtype ≠ defaultDType → feat.dtype ≠ x.dtype)) ∧
    (∀ (x : Tensor5) (b : ℕ) (orig : ℕ × ℕ × ℕ) (i : ℕ),
      x.d = rightShape orig.1 i → x.h = rightShape orig.2.1 i →
      x.w = rightShape orig.2.2 i →
      ensureRightShape x b orig i = some x) := by
  constructor
  · intro x b orig i hne hband
    exact ⟨padT x b orig i, ers_pad_case x b orig i hne hband, rfl, rfl,
      fun hx => Ne.symm hx⟩
  · intro x b orig i h1 h2 h3
    exact ers_eq_case x b orig i h1 h2 h3

/-- Witness for claim C10: a float64 stage output one voxel short is
rebuilt with the default float32 dtype (differing from float64), while a
float64 matching stage output is returned unchanged with its dtype. -/
theorem c10_witness :
    w10Pad.dtype ≠ defaultDType ∧
    (∃ feat, ensureRightShape w10Pad 1 (8, 8, 8) 0 = some feat ∧
      feat.dtype = defaultDType ∧ feat.device = w10Pad.device ∧
      (w10Pad.dtype ≠ defaultDType → feat.dtype ≠ w10Pad.dtype)) ∧
    ensureRightShape w10Match 1 (8, 8, 8) 0 = some w10Match := by
  refine ⟨by decide, ?_, ?_⟩
  · exact c10_padded_snapshot_dtype.1 w10Pad 1 (8, 8, 8) 0 (by decide)
      ⟨by decide, by decide, by decide, by decide, by decide, by decide⟩
  · exact c10_padded_snapshot_dtype.2 w10Match 1 (8, 8, 8) 0 (by decide)
      (by decide) (by decide)

theorem mkPAB_cout (cin cout : ℕ) (cmA : Option ℕ) (stride : ℕ)
    (θ : PABParams) (hco : 0 < cout) :
    (mkPAB cin (some cout) cmA stride θ).cout = cout :=
  pyOr_pos cout cin hco

theorem mkPAB_cmid (cin cout cmid stride : ℕ) (θ : PABParams)
    (hcm : 0 < cmid) :
    (mkPAB cin (some cout) (some cmid) stride θ).cmid = cmid :=
  pyOr_pos cmid (pyOr (some cout) cin / 4) hcm

/-- On the 9-cubed input, the stage-1 reconciliation matches exactly
(stage-1 spatial extent 2 = floor(9/4)). -/
theorem w1_s1 :
    ensureRightShape (s1Out cxNet w1X) w1X.n (w1X.d, w1X.h, w1X.w) 0 =
      some (s1Out cxNet w1X) := by
  obtain ⟨e1, e2, e3, e4, e5, e6, e7⟩ :=
    s1Out_shape (1, 1, 1) 1 1 resP0 w1X (by rw [resWidth_one]; omega)
  have hnet : cxNet = mkResNet (1, 1, 1) 1 1 resP0 := rfl
  rw [hnet]
  refine ers_eq_case _ _ _ _ ?_ ?_ ?_
  · rw [e3]
    decide
  · rw [e4]
    decide
  · rw [e5]
    decide

/-- On the 9-cubed input, the stage-2 reconciliation matches exactly
(stage-2 spatial extent 1 = floor(9/8)). -/
theorem w1_s2 :
    ensureRightShape (s2Out cxNet w1X) w1X.n (w1X.d, w1X.h, w1X.w) 1 =
      some (s2Out cxNet w1X) := by
  obtain ⟨e1, e2, e3, e4, e5, e6, e7⟩ :=
    s2Out_shape (1, 1, 1) 1 1 resP0 w1X (by rw [resWidth_one]; omega)
  have hnet : cxNet = mkResNet (1, 1, 1) 1 1 resP0 := rfl
  rw [hnet]
  refine ers_eq_case _ _ _ _ ?_ ?_ ?_
  · rw [e3]
    decide
  · rw [e4]
    decide
  · rw [e5]
    decide

/-- The 9-cubed run completes and returns the primary output with the
reversed snapshot list. -/
theorem w1_forward : resForward cxNet w1X = some (w1Y, w1Fs) := by
  simp only [resForward, w1_s1, w1_s2, w1Y, w1Fs, List.reverse_cons,
    List.reverse_nil, List.nil_append, List.cons_append]

/-- Claim C1 (amended): whenever forward completes without the
reconciliation assert firing — which it does not for every input at least
as large as the stem receptive field, see the counterexample — the result
is the pair (stage-3 output with 16*width channels, list of exactly the
three snapshots [stage2, stage1, root] (built [root, stage1, stage2] and
reversed) with channel counts [8*width, 4*width, width]); the root
snapshot is the root stem output taken before the max-pool, and stage 3
contributes no snapshot. -/
theorem c1_forward_structure (bu : ℕ × ℕ × ℕ) (wf : ℚ) (cin : ℕ)
    (θ : ResNetParams) (x : Tensor5) (y : Tensor5) (fs : List Tensor5)
    (hw : 0 < resWidth wf) (hd : 7 ≤ x.d) (hh : 7 ≤ x.h) (hx : 7 ≤ x.w)
    (hres : resForward (mkResNet bu wf cin θ) x = some (y, fs)) :
    y = s3Out (mkResNet bu wf cin θ) x ∧
    y.c = 16 * resWidth wf ∧
    fs.length = 3 ∧
    fs.map Tensor5.c = [8 * resWidth wf, 4 * resWidth wf, resWidth wf] ∧
    ∃ f1 f2,
      ensureRightShape (s1Out (mkResNet bu wf cin θ) x) x.n (x.d, x.h, x.w)
        0 = some f1 ∧
      ensureRightShape (s2Out (mkResNet bu wf cin θ) x) x.n (x.d, x.h, x.w)
        1 = some f2 ∧
      fs = [f2, f1, rootF (mkResNet bu wf cin θ) x] := by
  cases h1 : ensureRightShape (s1Out (mkResNet bu wf cin θ) x) x.n
      (x.d, x.h, x.w) 0 with
  | none =>
    simp only [resForward, h1] at hres
    exact Option.noConfusion hres
  | some f1 =>
    cases h2 : ensureRightShape (s2Out (mkResNet bu wf cin θ) x) x.n
        (x.d, x.h, x.w) 1 with
    | none =>
      simp only [resForward, h1, h2] at hres
      exact Option.noConfusion hres
    | some f2 =>
      simp only [resForward, h1, h2, List.reverse_cons, List.reverse_nil,
        List.nil_append, List.cons_append, Option.some.injEq,
        Prod.mk.injEq] at hres
      obtain ⟨hy, hfs⟩ := hres
      subst hy
      subst hfs
      obtain ⟨r1, r2, r3, r4⟩ := s3Out_shape bu wf cin θ x hw
      have hc1 := ers_some_c _ _ _ _ _ h1
      have hc2 := ers_some_c _ _ _ _ _ h2
      obtain ⟨s1a, s1b, _⟩ := s1Out_shape bu wf cin θ x hw
      obtain ⟨s2a, s2b, _⟩ := s2Out_shape bu wf cin θ x hw
      obtain ⟨ra, rb, _⟩ := rootF_mkResNet_shape bu wf cin θ x
      refine ⟨rfl, by omega, by simp, ?_, f1, f2, rfl, rfl, rfl⟩
      simp only [List.map_cons, List.map_nil, hc1, hc2, s1b, s2b, rb,
        List.cons.injEq, and_true]
      omega

/-- Counterexample to claim C1 as frozen: the 13-cubed input has every
spatial axis at least the stem receptive field, yet forward aborts: the
stage-2 output has extent 2 while the right shape is floor(13/8) = 1, a
negative pad, so the reconciliation assert fires and no pair is
returned. -/
theorem c1_counterexample : resForward cxNet cxX13 = none := by
  simp only [resForward, cx13_s1, cx13_s2_none]

/-- Witness for claim C1 on the 9-cubed input, where forward succeeds. -/
theorem c1_witness :
    0 < resWidth 1 ∧ 7 ≤ w1X.d ∧ 7 ≤ w1X.h ∧ 7 ≤ w1X.w ∧
    resForward (mkResNet (1, 1, 1) 1 1 resP0) w1X = some (w1Y, w1Fs) ∧
    (w1Y = s3Out (mkResNet (1, 1, 1) 1 1 resP0) w1X ∧
     w1Y.c = 16 * resWidth 1 ∧
     w1Fs.length = 3 ∧
     w1Fs.map Tensor5.c = [8 * resWidth 1, 4 * resWidth 1, resWidth 1] ∧
     ∃ f1 f2,
       ensureRightShape (s1Out (mkResNet (1, 1, 1) 1 1 resP0) w1X) w1X.n
         (w1X.d, w1X.h, w1X.w) 0 = some f1 ∧
       ensureRightShape (s2Out (mkResNet (1, 1, 1) 1 1 resP0) w1X) w1X.n
         (w1X.d, w1X.h, w1X.w) 1 = some f2 ∧
       w1Fs = [f2, f1, rootF (mkResNet (1, 1, 1) 1 1 resP0) w1X]) := by
  have hw : 0 < resWidth 1 := by rw [resWidth_one]; omega
  refine ⟨hw, by decide, by decide, by decide, w1_forward, ?_⟩
  exact c1_forward_structure (1, 1, 1) 1 1 resP0 w1X w1Y w1Fs hw (by decide)
    (by decide) (by decide) w1_forward

/-- Claim C6 (amended): for stage index i = 1, inputs whose spatial axes
are all divisible by 4*(i+1) = 8 (and at least 8) make the stage-2
reconciliation a no-op: the snapshot is the stage output itself, no
padding.  For i = 0 the claimed no-op fails, see the counterexample. -/
theorem c6_divisible_noop_stage2 (bu : ℕ × ℕ × ℕ) (wf : ℚ) (cin : ℕ)
    (θ : ResNetParams) (x : Tensor5) (hw : 0 < resWidth wf)
    (hd : 8 ∣ x.d) (hh : 8 ∣ x.h) (hx : 8 ∣ x.w)
    (hd8 : 8 ≤ x.d) (hh8 : 8 ≤ x.h) (hx8 : 8 ≤ x.w) :
    ensureRightShape (s2Out (mkResNet bu wf cin θ) x) x.n (x.d, x.h, x.w) 1
      = some (s2Out (mkResNet bu wf cin θ) x) := by
  obtain ⟨e1, e2, e3, e4, e5, e6, e7⟩ := s2Out_shape bu wf cin θ x hw
  refine ers_eq_case _ _ _ _ ?_ ?_ ?_
  · rw [e3]
    obtain ⟨s, hs⟩ := hd
    simp only [rightShape]
    omega
  · rw [e4]
    obtain ⟨s, hs⟩ := hh
    simp only [rightShape]
    omega
  · rw [e5]
    obtain ⟨s, hs⟩ := hx
    simp only [rightShape]
    omega

/-- Counterexample to claim C6 as frozen: for stage index i = 0 and the
8-cubed input (every axis divisible by 4), the stage-1 output has extent
1 but the right shape is 2, so the reconciliation is not a no-op: it
returns a freshly padded tensor instead of the stage output. -/
theorem c6_counterexample :
    8 % (4 * (0 + 1)) = 0 ∧
    ensureRightShape (s1Out cxNet cxX8) cxX8.n (cxX8.d, cxX8.h, cxX8.w) 0 ≠
      some (s1Out cxNet cxX8) := by
  obtain ⟨e1, e2, e3, e4, e5, e6, e7⟩ :=
    s1Out_shape (1, 1, 1) 1 1 resP0 cxX8 (by rw [resWidth_one]; omega)
  have hnet : cxNet = mkResNet (1, 1, 1) 1 1 resP0 := rfl
  refine ⟨by decide, ?_⟩
  rw [hnet]
  rw [ers_pad_case (s1Out (mkResNet (1, 1, 1) 1 1 resP0) cxX8) cxX8.n
    (cxX8.d, cxX8.h, cxX8.w) 0 (by rw [e3, e4, e5]; decide)
    (by rw [e3, e4, e5]; decide)]
  intro hcon
  simp only [Option.some.injEq] at hcon
  have hdd := congrArg Tensor5.d hcon
  rw [e3] at hdd
  exact absurd hdd (by decide)

/-- Witness for claim C6 at the 8-cubed input (axes divisible by 8). -/
theorem c6_witness :
    0 < resWidth 1 ∧ (8 : ℕ) ∣ cxX8.d ∧ (8 : ℕ) ∣ cxX8.h ∧
    (8 : ℕ) ∣ cxX8.w ∧ 8 ≤ cxX8.d ∧ 8 ≤ cxX8.h ∧ 8 ≤ cxX8.w ∧
    ensureRightShape (s2Out (mkResNet (1, 1, 1) 1 1 resP0) cxX8) cxX8.n
      (cxX8.d, cxX8.h, cxX8.w) 1 =
      some (s2Out (mkResNet (1, 1, 1) 1 1 resP0) cxX8) := by
  have hw : 0 < resWidth 1 := by rw [resWidth_one]; omega
  refine ⟨hw, by decide, by decide, by decide, by decide, by decide,
    by decide, ?_⟩
  exact c6_divisible_noop_stage2 (1, 1, 1) 1 1 resP0 cxX8 hw (by decide)
    (by decide) (by decide) (by decide) (by decide) (by decide)

/-- Claim C7 (amended): for block counts with each entry at least 1,
stage k of the constructed backbone is an ordered sequence of exactly
b_k bottleneck units; the first unit carries the stage stride (1 for
stage 1, 2 for stages 2 and 3) and the channel transition to output
channel count width * 4 * 2^(k-1) with mid-channel count one QUARTER of
that output count (the frozen claim said half, refuted by the
counterexample); every subsequent unit has stride 1 and preserves the
stage channel width. -/
theorem c7_stage_composition (b1 b2 b3 : ℕ) (wf : ℚ) (cin : ℕ)
    (θ : ResNetParams) (hb1 : 1 ≤ b1) (hb2 : 1 ≤ b2) (hb3 : 1 ≤ b3)
    (hw : 0 < resWidth wf) :
    ((mkResNet (b1, b2, b3) wf cin θ).block1.length = b1 ∧
     (mkResNet (b1, b2, b3) wf cin θ).block2.length = b2 ∧
     (mkResNet (b1, b2, b3) wf cin θ).block3.length = b3) ∧
    (∃ u t, (mkResNet (b1, b2, b3) wf cin θ).block1 = u :: t ∧
      u.stride = 1 ∧ u.cin = resWidth wf ∧
      u.cout = resWidth wf * 4 * 2 ^ 0 ∧ 4 * u.cmid = u.cout ∧
      ∀ v ∈ t, v.stride = 1 ∧ v.cin = resWidth wf * 4 * 2 ^ 0 ∧
        v.cout = resWidth wf * 4 * 2 ^ 0) ∧
    (∃ u t, (mkResNet (b1, b2, b3) wf cin θ).block2 = u :: t ∧
      u.stride = 2 ∧ u.cin = resWidth wf * 4 * 2 ^ 0 ∧
      u.cout = resWidth wf * 4 * 2 ^ 1 ∧ 4 * u.cmid = u.cout ∧
      ∀ v ∈ t, v.stride = 1 ∧ v.cin = resWidth wf * 4 * 2 ^ 1 ∧
        v.cout = resWidth wf * 4 * 2 ^ 1) ∧
    (∃ u t, (mkResNet (b1, b2, b3) wf cin θ).block3 = u :: t ∧
      u.stride = 2 ∧ u.cin = resWidth wf * 4 * 2 ^ 1 ∧
      u.cout = resWidth wf * 4 * 2 ^ 2 ∧ 4 * u.cmid = u.cout ∧
      ∀ v ∈ t, v.stride = 1 ∧ v.cin = resWidth wf * 4 * 2 ^ 2 ∧
        v.cout = resWidth wf * 4 * 2 ^ 2) := by
  refine ⟨⟨?_, ?_, ?_⟩, ?_, ?_, ?_⟩
  · simp only [mkResNet, mkBlock, List.length_cons, List.length_map,
      List.length_range]
    omega
  · simp only [mkResNet, mkBlock, List.length_cons, List.length_map,
      List.length_range]
    omega
  · simp only [mkResNet, mkBlock, List.length_cons, List.length_map,
      List.length_range]
    omega
  · refine ⟨mkPAB (resWidth wf) (some (resWidth wf * 4)) (some (resWidth wf))
      1 (θ.t1 1), _, rfl, rfl, rfl, ?_, ?_, ?_⟩
    · rw [mkPAB_cout _ _ _ _ _ (by omega)]
      ring
    · rw [mkPAB_cout _ _ _ _ _ (by omega),
        mkPAB_cmid _ _ _ _ _ (by omega)]
      ring
    · intro v hv
      obtain ⟨j, _, rfl⟩ := List.mem_map.mp hv
      refine ⟨rfl, by simp [mkPAB], ?_⟩
      rw [mkPAB_cout _ _ _ _ _ (by omega)]
      ring
  · refine ⟨mkPAB (resWidth wf * 4) (some (resWidth wf * 8))
      (some (resWidth wf * 2)) 2 (θ.t2 1), _, rfl, rfl, by simp [mkPAB],
      ?_, ?_, ?_⟩
    · rw [mkPAB_cout _ _ _ _ _ (by omega)]
      ring
    · rw [mkPAB_cout _ _ _ _ _ (by omega),
        mkPAB_cmid _ _ _ _ _ (by omega)]
      ring
    · intro v hv
      obtain ⟨j, _, rfl⟩ := List.mem_map.mp hv
      refine ⟨rfl, by simp [mkPAB]; ring, ?_⟩
      rw [mkPAB_cout _ _ _ _ _ (by omega)]
      ring
  · refine ⟨mkPAB (resWidth wf * 8) (some (resWidth wf * 16))
      (some (resWidth wf * 4)) 2 (θ.t3 1), _, rfl, rfl, by simp [mkPAB]; ring,
      ?_, ?_, ?_⟩
    · rw [mkPAB_cout _ _ _ _ _ (by omega)]
      ring
    · rw [mkPAB_cout _ _ _ _ _ (by omega),
        mkPAB_cmid _ _ _ _ _ (by omega)]
      ring
    · intro v hv
      obtain ⟨j, _, rfl⟩ := List.mem_map.mp hv
      refine ⟨rfl, by simp [mkPAB]; ring, ?_⟩
      rw [mkPAB_cout _ _ _ _ _ (by omega)]
      ring

/-- Counterexample to claim C7 as frozen: with block counts (0, 1, 1)
stage 1 still holds one unit, not zero; and at width factor 1 the first
unit of stage 1 has cmid = 64 and cout = 256, so the mid-channel count is
a quarter of the output channel count, not half of it. -/
theorem c7_counterexample :
    (mkResNet (0, 1, 1) 1 1 resP0).block1.length = 1 ∧
    (mkResNet (3, 4, 9) 1 1 resP0).block1.head?.map PAB.cmid = some 64 ∧
    (mkResNet (3, 4, 9) 1 1 resP0).block1.head?.map PAB.cout = some 256 ∧
    (64 : ℕ) ≠ 256 / 2 := by
  have h64 := resWidth_one
  refine ⟨?_, ?_, ?_, by omega⟩
  · simp [mkResNet, mkBlock]
  · show (some ((mkPAB (resWidth 1) (some (resWidth 1 * 4))
      (some (resWidth 1)) 1 (resP0.t1 1)).cmid) : Option ℕ) = some 64
    rw [mkPAB_cmid _ _ _ _ _ (by omega), h64]
  · show (some ((mkPAB (resWidth 1) (some (resWidth 1 * 4))
      (some (resWidth 1)) 1 (resP0.t1 1)).cout) : Option ℕ) = some 256
    rw [mkPAB_cout _ _ _ _ _ (by omega), h64]

/-- Witness for claim C7 at the reference configuration (3, 4, 9) with
width factor 1. -/
theorem c7_witness :
    1 ≤ 3 ∧ 1 ≤ 4 ∧ 1 ≤ 9 ∧ 0 < resWidth 1 ∧
    (((mkResNet (3, 4, 9) 1 1 resP0).block1.length = 3 ∧
      (mkResNet (3, 4, 9) 1 1 resP0).block2.length = 4 ∧
      (mkResNet (3, 4, 9) 1 1 resP0).block3.length = 9) ∧
     (∃ u t, (mkResNet (3, 4, 9) 1 1 resP0).block1 = u :: t ∧
       u.stride = 1 ∧ u.cin = resWidth 1 ∧
       u.cout = resWidth 1 * 4 * 2 ^ 0 ∧ 4 * u.cmid = u.cout ∧
       ∀ v ∈ t, v.stride = 1 ∧ v.cin = resWidth 1 * 4 * 2 ^ 0 ∧
         v.cout = resWidth 1 * 4 * 2 ^ 0) ∧
     (∃ u t, (mkResNet (3, 4, 9) 1 1 resP0).block2 = u :: t ∧
       u.stride = 2 ∧ u.cin = resWidth 1 * 4 * 2 ^ 0 ∧
       u.cout = resWidth 1 * 4 * 2 ^ 1 ∧ 4 * u.cmid = u.cout ∧
       ∀ v ∈ t, v.stride = 1 ∧ v.cin = resWidth 1 * 4 * 2 ^ 1 ∧
         v.cout = resWidth 1 * 4 * 2 ^ 1) ∧
     (∃ u t, (mkResNet (3, 4, 9) 1 1 resP0).block3 = u :: t ∧
       u.stride = 2 ∧ u.cin = resWidth 1 * 4 * 2 ^ 1 ∧
       u.cout = resWidth 1 * 4 * 2 ^ 2 ∧ 4 * u.cmid = u.cout ∧
       ∀ v ∈ t, v.stride = 1 ∧ v.cin = resWidth 1 * 4 * 2 ^ 2 ∧
         v.cout = resWidth 1 * 4 * 2 ^ 2)) := by
  have hw : 0 < resWidth 1 := by rw [resWidth_one]; omega
  exact ⟨by omega, by omega, by omega, hw,
    c7_stage_composition 3 4 9 1 1 resP0 (by omega) (by omega) (by omega) hw⟩
